import Mathlib

/-!
Verification of the workflow-orchestration and feedback-gating core of the
`ocean-analy-remote` repository, against its natural-language specification.

The embedding models the Python modules
`ocean_analysis/agents/supervisor_agent.py`,
`ocean_analysis/core/agent_orchestrator.py` and the agent classes under
`ocean_analysis/agents/`.  Python dicts are modelled as association lists
over `String` keys with Python's `dict.__setitem__` / `dict.update`
semantics (an existing key keeps its position and gets the new value, a new
key is appended at the end).  Wall-clock time (`datetime.now()`) is passed
in as an explicit `Nat` parameter.  Fallible Python code is modelled with
`Except`.

Several methods are called by the code under `src/` but defined nowhere in
the repository (for example `SupervisorAgent._calculate_auto_review_score`,
`SupervisorAgent._perform_automated_review`,
`SupervisorAgent._check_completeness`, the `SupervisorAgent._coordinate_*`
phase helpers and `WorkflowManager._execute_agent`'s callees).  Those are
modelled from the specification; each such definition carries a doc comment
starting with `Modelled from the spec:`.
-/

namespace OceanAnalysis

/-- A field value of the `WaterMassDefinition` dataclass
(`water_mass_agent.py` lines 13-23): a number, a string, a
`depth_range` pair, or `None`. -/
inductive WMField where
  | num (q : ℚ) : WMField
  | str (s : String) : WMField
  | range (a b : ℚ) : WMField
  | noneVal : WMField
deriving DecidableEq, Repr

/-- One element of a `reference_masses` list handed to
`WaterMassAgent.configure`: a raw Python dict of keyword arguments, an
already-constructed `WaterMassDefinition` (recorded by the keyword
arguments it was built from; the source builds these with
`WaterMassDefinition(**mass)`), or a plain string (the element shape that
arises when a string is iterated as a `reference_masses` value). -/
inductive MassElem where
  | rawDict (fields : List (String × WMField)) : MassElem
  | wmDefinition (fields : List (String × WMField)) : MassElem
  | strElem (s : String) : MassElem
deriving DecidableEq, Repr

/-- Values stored in the Python dicts the orchestration core passes around:
numbers, strings, booleans, and (for `WaterMassAgent.configure`) lists of
water-mass entries. -/
inductive Val where
  | num (q : ℚ) : Val
  | str (s : String) : Val
  | bool (b : Bool) : Val
  | masses (l : List MassElem) : Val
deriving DecidableEq, Repr

/-- A Python dict with `String` keys, as an insertion-ordered association
list.  The orchestration core never creates dicts with duplicate keys. -/
abbrev Dict := List (String × Val)

/-- Python dict lookup `d.get(k)` / `k in d`: first binding of `k`, if any. -/
def dget {α : Type} : List (String × α) → String → Option α
  | [], _ => none
  | (k', v') :: rest, k => if k' = k then some v' else dget rest k

/-- Python `d[k] = v`: an existing key keeps its position and receives the
new value; a new key is appended at the end. -/
def dictSet {α : Type} : List (String × α) → String → α → List (String × α)
  | [], k, v => [(k, v)]
  | (k', v') :: rest, k, v =>
    if k' = k then (k, v) :: rest else (k', v') :: dictSet rest k v

/-- Python `d.update(other)`: sets each binding of `other`, in order, into
`d`. -/
def dictUpdate {α : Type} (d other : List (String × α)) : List (String × α) :=
  other.foldl (fun acc p => dictSet acc p.1 p.2) d

/-- Python exceptions surfaced by the orchestration core. -/
inductive PyError where
  | nameError (missing : String) : PyError
  | attributeError (cls attr : String) : PyError
  | valueError (msg : String) : PyError
  | typeError (msg : String) : PyError
  | fileNotFound (path : String) : PyError
  | unitError (msg : String) : PyError
deriving DecidableEq, Repr

/-! ## `ocean_analysis/core/agent_orchestrator.py` -/

/-- One stage of the workflow built by `AgentOrchestrator.setup_workflow`
(`agent_orchestrator.py` lines 41-59): a name, an ordered list of agent
names and a parallel flag. -/
structure Stage where
  name : String
  agents : List String
  parallel : Bool
deriving DecidableEq, Repr

/-- The hard-coded stage list assigned to `self.workflow['stages']` by
`AgentOrchestrator.setup_workflow`. -/
def setupWorkflowStages : List Stage :=
  [⟨"data_processing", ["parser", "qa"], false⟩,
   ⟨"analysis", ["analyst", "water_mass", "stats"], true⟩,
   ⟨"reporting", ["report"], false⟩]

/-- The mutable attributes of `WorkflowManager` together with the
`input_data` dict threaded through `execute_workflow`:
`current_stage` (line 99), `stage_results` (line 100, a dict from stage
name to the stage's list of agent results) and the shared `input_data`
dict the sequential branch mutates in place (line 120).  `WorkflowManager`
has no status field of its own. -/
structure WMState where
  current_stage : Option String
  stage_results : List (String × List Dict)
  input_data : Dict
deriving DecidableEq, Repr

/-- The behaviour of one `WorkflowManager._execute_agent` call, as a
function of the agent name and the `input_data` it is given.

`Modelled from the spec:` `_execute_agent`'s callees
(`_check_dependencies`, `orchestrator.get_agent`,
`_request_supervisor_feedback`, `_apply_corrections`) are defined nowhere
in the repository, so the net effect of one unit execution — a result
dict, or a failure — is taken as a parameter.  `_execute_agent` only reads
`input_data` and returns a result; it never writes the shared dict, which
matches this functional signature. -/
abbrev ExecAgent := String → Dict → Except PyError Dict

/-- The sequential branch of `WorkflowManager.execute_workflow`
(lines 115-120): run each agent against the current `input_data`, append
its result to `results`, and merge it into `input_data` with
`input_data.update(result)` before the next agent runs.  A failure aborts
the stage; the error carries the partially-updated `input_data` (Python
mutated it in place for the agents that already succeeded). -/
def execSeq (exec : ExecAgent) :
    List String → Dict → List Dict → Except (PyError × Dict) (List Dict × Dict)
  | [], ctx, acc => .ok (acc.reverse, ctx)
  | a :: rest, ctx, acc =>
    match exec a ctx with
    | .error e => .error (e, ctx)
    | .ok r => execSeq exec rest (dictUpdate ctx r) (r :: acc)

/-- The parallel branch of `WorkflowManager.execute_workflow`
(lines 107-113): every agent is launched against the same `input_data`
snapshot and the results are gathered in launch order; `input_data` is not
modified.  A failing member surfaces its error after the fan-in. -/
def execPar (exec : ExecAgent) : List String → Dict → Except PyError (List Dict)
  | [], _ => .ok []
  | a :: rest, ctx =>
    match exec a ctx with
    | .error e => .error e
    | .ok r =>
      match execPar exec rest ctx with
      | .error e => .error e
      | .ok rs => .ok (r :: rs)

/-- Dispatch on `stage['parallel']` (line 107).  On failure the error also
carries the `input_data` as left behind by the stage. -/
def stageRun (exec : ExecAgent) (stg : Stage) (ctx : Dict) :
    Except (PyError × Dict) (List Dict × Dict) :=
  if stg.parallel then
    match execPar exec stg.agents ctx with
    | .error e => .error (e, ctx)
    | .ok rs => .ok (rs, ctx)
  else
    execSeq exec stg.agents ctx []

/-- Embeds `WorkflowManager.execute_workflow` (lines 102-124): for each stage in
order, set `current_stage` to the stage's name, run the stage, store the
list of results under the stage's name in `stage_results`, and continue.
There is no exception handler: a unit failure propagates to the caller
with the state as it stood when the failure surfaced. -/
def executeWorkflow (exec : ExecAgent) :
    List Stage → WMState → Except (PyError × WMState) WMState
  | [], st => .ok st
  | stg :: rest, st =>
    match stageRun exec stg st.input_data with
    | .error (e, ctx') =>
      .error (e, ⟨some stg.name, st.stage_results, ctx'⟩)
    | .ok (rs, ctx') =>
      executeWorkflow exec rest
        ⟨some stg.name, dictSet st.stage_results stg.name rs, ctx'⟩

/-- The names bound at module top level in `agent_orchestrator.py`: the
imports of lines 1-3 (`from typing import Dict, Any, List`,
`import asyncio`, `from pathlib import Path`) and the four classes the
module defines.  `datetime` is not imported by this module. -/
def orchestratorModuleNames : List String :=
  ["Dict", "Any", "List", "asyncio", "Path",
   "AgentOrchestrator", "AgentCommunicationProtocol",
   "WorkflowManager", "AgentIntegrationLayer"]

/-- Python name resolution for a global reference inside
`agent_orchestrator.py` (`datetime` is also not a builtin). -/
def resolvesInOrchestrator (n : String) : Bool :=
  orchestratorModuleNames.contains n

/-- A message envelope as built by
`AgentCommunicationProtocol.send_message` (lines 71-77). -/
structure Message where
  sender : String
  receiver : String
  mtype : String
  content : Val
  timestamp : Nat
deriving DecidableEq, Repr

/-- Embeds `AgentCommunicationProtocol.send_message` (lines 66-78): builds the
envelope dict — whose `'timestamp'` entry evaluates `datetime.now()`, a
global name resolved in the enclosing module — and only then enqueues it
with `await channel.put(message)`.  `now` stands for the clock value
`datetime.now()` would return if the name resolved. -/
def sendMessage (sender receiver mtype : String) (content : Val) (now : Nat)
    (channel : List Message) : Except PyError (List Message) :=
  if resolvesInOrchestrator "datetime" then
    .ok (channel ++ [⟨sender, receiver, mtype, content, now⟩])
  else
    .error (.nameError "datetime")

/-! ## `ocean_analysis/agents/supervisor_agent.py` -/

/-- The dict returned by `SupervisorAgent.coordinate_analysis`
(lines 228-239): a `'completed'` status, the six phase results, and the
supervisor's `workflow_status` as it stands at return time. -/
structure CoordinationResult where
  status : String
  parsing : Dict
  qa : Dict
  analysis : Dict
  statistics : Dict
  water_masses : Dict
  report : Dict
  workflow_status : Dict
deriving DecidableEq, Repr

/-- Embeds `SupervisorAgent.coordinate_analysis` (lines 199-243).

`Modelled from the spec:` the six `_coordinate_*` phase helpers the method
awaits are defined nowhere in the repository; each phase is taken as a
parameter (`p1` parsing, `p2` quality control on the parsed data, `p3`
analysis on the QA results, `p4` statistics and `p5` water masses on the
analysis results, `p6` reporting on all five).  The `except` block
(lines 241-243) only logs and re-raises, so a phase failure propagates
unchanged and `workflow_status` — returned as the second component, the
attribute's value after the call — is never written by this method. -/
def coordinateAnalysis (p1 : Except PyError Dict)
    (p2 p3 p4 p5 : Dict → Except PyError Dict)
    (p6 : Dict → Dict → Dict → Dict → Dict → Except PyError Dict)
    (workflow_status : Dict) :
    Except PyError CoordinationResult × Dict :=
  let run : Except PyError CoordinationResult := do
    let parsed ← p1
    let qaR ← p2 parsed
    let analysisR ← p3 qaR
    let statsR ← p4 analysisR
    let wmR ← p5 analysisR
    let reportR ← p6 parsed qaR analysisR statsR wmR
    pure ⟨"completed", parsed, qaR, analysisR, statsR, wmR, reportR, workflow_status⟩
  (run, workflow_status)

/-- Embeds `SupervisorAgent._determine_approval_status`
(`supervisor_agent.py` lines 337-365).

`Modelled from the spec:` the three score helpers the source calls —
`_calculate_auto_review_score`, `_calculate_quality_score`,
`_calculate_user_feedback_score` — are defined nowhere in the repository;
per the spec they produce scores normalized to `[0,1]`, so this embedding
takes the automated-review score and quality score directly, and the user
feedback as its already-normalized score (`none` when no feedback was
supplied).  The threshold logic is translated from the source verbatim. -/
def determineApprovalStatus (auto_score quality_score : ℚ)
    (user_feedback : Option ℚ) : String :=
  let quality_threshold : ℚ := 0.8
  let user_score : ℚ :=
    match user_feedback with
    | none => 1.0
    | some s => s
  let final_score : ℚ := auto_score * 0.4 + quality_score * 0.4 + user_score * 0.2
  if final_score ≥ quality_threshold then "approved"
  else if final_score ≥ quality_threshold * 0.8 then "needs_minor_revision"
  else "needs_major_revision"

/-- The four artifact paths `SupervisorAgent.verify_outputs` requires
(lines 379-384). -/
def requiredFiles : List String :=
  ["figures/ctd_profiles.png",
   "figures/ts_diagram.png",
   "figures/vertical_sections.png",
   "figures/spatial_distribution.png"]

/-- Embeds `SupervisorAgent.verify_outputs` (lines 367-402): for each required
file, check existence of `output_dir / file`; collect the missing ones;
return `False` when any is missing, `True` otherwise.  The whole body is
wrapped in `try/except` returning `False`, so the method never raises; the
existence test is modelled by the `fsExists` predicate, and the collected
`missing_files` list is returned alongside the boolean. -/
def verifyOutputs (fsExists : String → Bool) (output_dir : String) :
    Bool × List String :=
  let missing := requiredFiles.filter (fun f => !fsExists (output_dir ++ "/" ++ f))
  (missing.isEmpty, missing)

/-- The `evaluation` dict built by `SupervisorAgent._evaluate_results`
(lines 306-317). -/
structure Evaluation where
  completeness : ℚ
  quality : ℚ
  consistency : Bool
  issues : List String
deriving DecidableEq, Repr

/-- The feedback dict built by `SupervisorAgent.provide_feedback`
(lines 295-301): stage, `datetime.now()` timestamp, evaluation,
recommendations and quality metrics. -/
structure FeedbackRecord where
  stage : String
  timestamp : Nat
  evaluation : Evaluation
  recommendations : List String
  quality_metrics : List (String × ℚ)
deriving DecidableEq, Repr

/-- Modelled from the spec: the stage-specific expected-output-key lists
used by the completeness finding (§4.4); `_check_completeness` and its
key lists are defined nowhere in the repository. -/
def expectedKeys (stage : String) : List String :=
  match stage with
  | "parsing" => ["data", "metadata"]
  | "qa" => ["clean_data", "qa_results"]
  | "analysis" => ["results", "correlations"]
  | "reporting" => ["report"]
  | _ => []

/-- Modelled from the spec: `SupervisorAgent._check_completeness` is
missing from the repository; per §4.4 completeness is the fraction of
expected output keys present in the stage's output. -/
def checkCompleteness (stage : String) (results : Dict) : ℚ :=
  let ks := expectedKeys stage
  if ks.isEmpty then 1
  else ((ks.filter (fun k => (dget results k).isSome)).length : ℚ) / (ks.length : ℚ)

/-- Modelled from the spec: `SupervisorAgent._assess_quality` is missing
from the repository; per §4.4 it is a stage-specific numeric score of the
output, here the fraction of entries of the output that carry a numeric
value. -/
def assessQuality (stage : String) (results : Dict) : ℚ :=
  if results.isEmpty then 0
  else ((results.filter (fun p => match p.2 with | .num _ => true | _ => false)).length : ℚ)
    / (results.length : ℚ)

/-- Modelled from the spec: `SupervisorAgent._verify_consistency` is
missing from the repository; per §4.4 it is a cross-field sanity check of
the output, here that the output declares no key twice. -/
def verifyConsistency (stage : String) (results : Dict) : Bool :=
  (results.map Prod.fst).Nodup

/-- Modelled from the spec: `SupervisorAgent._identify_issues` is
missing from the repository; per §4.4 it lists human-readable findings
when completeness, quality or consistency falls below the stage's
threshold. -/
def identifyIssues (stage : String) (results : Dict) : List String :=
  (if checkCompleteness stage results < 0.8 then ["incomplete output"] else []) ++
  (if assessQuality stage results < 0.8 then ["low quality score"] else []) ++
  (if verifyConsistency stage results then [] else ["inconsistent output"])

/-- Embeds `SupervisorAgent._evaluate_results` (lines 306-317): assembles the
four findings into the evaluation dict. -/
def evaluateResults (stage : String) (results : Dict) : Evaluation :=
  ⟨checkCompleteness stage results,
   assessQuality stage results,
   verifyConsistency stage results,
   identifyIssues stage results⟩

/-- Modelled from the spec: `SupervisorAgent._generate_stage_recommendations`
is missing from the repository; per §4.5 recommendations are generated
from the findings that fell below their thresholds. -/
def generateStageRecommendations (stage : String) (results : Dict) : List String :=
  (identifyIssues stage results).map (fun issue => "address: " ++ issue)

/-- Modelled from the spec: the four per-stage metric helpers
(`_calculate_parsing_metrics`, `_calculate_qa_metrics`,
`_calculate_analysis_metrics`, `_calculate_report_metrics`) dispatched to
by `_calculate_quality_metrics` are missing from the repository; each is a
deterministic numeric summary of the stage output. -/
def stageMetrics (stage : String) (results : Dict) : List (String × ℚ) :=
  [("completeness", checkCompleteness stage results),
   ("quality", assessQuality stage results)]

/-- Embeds `SupervisorAgent._calculate_quality_metrics` (lines 319-335): starts
from an empty dict and merges in the stage-specific metrics for the four
recognized stages; any other stage yields the empty dict. -/
def calculateQualityMetrics (stage : String) (results : Dict) : List (String × ℚ) :=
  if stage = "parsing" ∨ stage = "qa" ∨ stage = "analysis" ∨ stage = "reporting" then
    dictUpdate [] (stageMetrics stage results)
  else []

/-- Embeds `SupervisorAgent.provide_feedback` (lines 291-304): builds the
feedback dict — with a `datetime.now()` timestamp, passed here as `now` —
appends it to `self.feedback_history` and returns it. -/
def provideFeedback (now : Nat) (stage : String) (results : Dict)
    (history : List FeedbackRecord) : FeedbackRecord × List FeedbackRecord :=
  let fb : FeedbackRecord :=
    ⟨stage, now, evaluateResults stage results,
     generateStageRecommendations stage results,
     calculateQualityMetrics stage results⟩
  (fb, history ++ [fb])

/-- The review dict built by `SupervisorAgent.review_report`
(lines 250-289): the initial fields of lines 250-256 (of which `status`
and `feedback` are never changed) plus the fields filled in afterwards. -/
structure ReviewResult where
  timestamp : Nat
  status : String
  feedback : List String
  automated_review : Dict
  user_feedback : Option Dict
  quality_evaluation : Dict
  recommendations : List String
  approval_status : String
deriving DecidableEq, Repr

/-- Modelled from the spec: `SupervisorAgent._perform_automated_review`
is missing from the repository; per §4.5 it derives review findings from
the report, deterministically. -/
def performAutomatedReview (report_path : String) : Dict :=
  [("report", .str report_path), ("structure_ok", .bool true)]

/-- Modelled from the spec: `SupervisorAgent._evaluate_report_quality`
is missing from the repository; a deterministic quality evaluation of the
report. -/
def evaluateReportQuality (report_path : String) : Dict :=
  [("report", .str report_path), ("readability", .num 1)]

/-- Modelled from the spec: `SupervisorAgent._calculate_auto_review_score`
is missing from the repository; per §4.5 it normalizes the automated
review to `[0,1]`. -/
def calcAutoReviewScore (auto_review : Dict) : ℚ :=
  if dget auto_review "structure_ok" = some (.bool true) then 1 else 1 / 2

/-- Modelled from the spec: `SupervisorAgent._calculate_quality_score`
is missing from the repository; per §4.5 it normalizes the quality
evaluation to `[0,1]`. -/
def calcQualityScore (quality_eval : Dict) : ℚ :=
  if (dget quality_eval "readability").isSome then 1 else 1 / 2

/-- Modelled from the spec: `SupervisorAgent._calculate_user_feedback_score`
is missing from the repository; per §4.5 it normalizes the user feedback
to `[0,1]`. -/
def calcUserFeedbackScore (user_feedback : Dict) : ℚ :=
  if dget user_feedback "satisfied" = some (.bool false) then 0 else 1

/-- Modelled from the spec: `SupervisorAgent._generate_recommendations`
is missing from the repository; per §4.5 recommendations come from the
findings below threshold, deterministically in evaluation order. -/
def generateRecommendations (auto_review quality_eval : Dict)
    (user_feedback : Option Dict) : List String :=
  (if calcAutoReviewScore auto_review < 0.8 then ["revise report structure"] else []) ++
  (if calcQualityScore quality_eval < 0.8 then ["improve report quality"] else []) ++
  (match user_feedback with
   | some uf => if calcUserFeedbackScore uf < 0.8 then ["address user feedback"] else []
   | none => [])

/-- Embeds `_determine_approval_status` as called from `review_report`
(lines 279-283), bridging the review dicts to the score-level
`determineApprovalStatus` through the spec-modelled score helpers. -/
def determineApprovalStatusOfReview (auto_review quality_eval : Dict)
    (user_feedback : Option Dict) : String :=
  determineApprovalStatus (calcAutoReviewScore auto_review)
    (calcQualityScore quality_eval)
    (user_feedback.map calcUserFeedbackScore)

/-- Embeds `SupervisorAgent.review_report` (lines 245-289): builds the review
dict (timestamp `datetime.now()`, passed as `now`; `status` stays
`'pending'`; `feedback` stays `[]`), performs the automated review and the
quality evaluation, keeps the user feedback when supplied, generates
recommendations, determines the approval status, appends the completed
review to `self.report_reviews` and returns it. -/
def reviewReport (now : Nat) (report_path : String) (user_feedback : Option Dict)
    (reviews : List ReviewResult) : ReviewResult × List ReviewResult :=
  let auto := performAutomatedReview report_path
  let quality := evaluateReportQuality report_path
  let recs := generateRecommendations auto quality user_feedback
  let approval := determineApprovalStatusOfReview auto quality user_feedback
  let rr : ReviewResult :=
    ⟨now, "pending", [], auto, user_feedback, quality, recs, approval⟩
  (rr, reviews ++ [rr])

/-- A sequence of `review_report` calls (each a timestamp, a report path
and optional user feedback) folded over the review history. -/
def runReviews (calls : List (Nat × String × Option Dict))
    (reviews : List ReviewResult) : List ReviewResult :=
  calls.foldl (fun acc c => (reviewReport c.1 c.2.1 c.2.2 acc).2) reviews

/-! ## Agent `configure` methods (`ocean_analysis/agents/*.py`) -/

/-- The whitelist of scalar keys `WaterMassAgent.configure` copies
(`water_mass_agent.py` lines 74-76). -/
def wmScalarKeys : List String :=
  ["min_points", "min_fraction", "max_distance"]

/-- The keyword parameters of the `WaterMassDefinition` dataclass
(`water_mass_agent.py` lines 13-23), in declaration order. -/
def wmDefFields : List String :=
  ["name", "temperature", "salinity", "oxygen", "depth_range",
   "sigma_t", "region", "description"]

/-- The `WaterMassDefinition` parameters without a default value
(lines 16-18): constructing one without them raises `TypeError`. -/
def wmDefRequired : List String :=
  ["name", "temperature", "salinity"]

/-- Whether `WaterMassDefinition(**fields)` succeeds: every supplied
keyword must be a dataclass parameter (else `TypeError: unexpected
keyword argument`) and every parameter without a default must be supplied
(else `TypeError: missing required positional argument`).  The dataclass
carries no runtime type checks, so only the keyword set matters. -/
def wmValidKwargs (fields : List (String × WMField)) : Bool :=
  fields.all (fun p => wmDefFields.contains p.1) &&
    wmDefRequired.all (fun r => (dget fields r).isSome)

/-- The transform `WaterMassDefinition(**mass) if isinstance(mass, dict)
else mass` applied to one element of a `reference_masses` list
(`water_mass_agent.py` line 69): a dict element is turned into a
`WaterMassDefinition` — raising `TypeError` when its keyword set is
invalid — and any other element is kept unchanged. -/
def wmTransformMass (m : MassElem) : Except PyError MassElem :=
  match m with
  | .rawDict fields =>
    if wmValidKwargs fields then .ok (.wmDefinition fields)
    else .error (.typeError "WaterMassDefinition keyword arguments")
  | e => .ok e

/-- Iterating `config['reference_masses']` in the list comprehension of
lines 68-71: a list yields its elements; a string is iterable in Python
and yields its characters (each a one-character string, not a dict, so
kept as-is downstream); a number or boolean is not iterable and raises
`TypeError`. -/
def wmIterMasses : Val → Except PyError (List MassElem)
  | .masses l => .ok l
  | .str s => .ok (s.data.map fun c => MassElem.strElem (String.mk [c]))
  | .num _ => .error (.typeError "reference_masses is not iterable")
  | .bool _ => .error (.typeError "reference_masses is not iterable")

/-- One iteration of the `for key in [...]` loop of
`WaterMassAgent.configure` (lines 74-76): `if key in config:
self.config[key] = config[key]`. -/
def wmCopyScalar (options acc : Dict) (k : String) : Dict :=
  match dget options k with
  | some v => dictSet acc k v
  | none => acc

/-- Embeds `WaterMassAgent.configure` (`water_mass_agent.py` lines
60-76): when the options carry a `reference_masses` entry, iterate it and
construct `WaterMassDefinition`s from its raw-dict elements — the list
comprehension raises `TypeError` for a non-iterable value or an invalid
keyword set, aborting `configure` before anything is assigned — then
replace the default list with the transformed one and copy only the three
whitelisted scalar keys.  Options keys outside `reference_masses` and the
whitelist are ignored. -/
def waterMassConfigure (defaults options : Dict) : Except PyError Dict :=
  match dget options "reference_masses" with
  | none => .ok (wmScalarKeys.foldl (wmCopyScalar options) defaults)
  | some v =>
    match wmIterMasses v with
    | .error e => .error e
    | .ok ms =>
      match ms.mapM wmTransformMass with
      | .error e => .error e
      | .ok ms2 =>
        .ok (wmScalarKeys.foldl (wmCopyScalar options)
          (dictSet defaults "reference_masses" (Val.masses ms2)))

/-- The three default reference masses built in `WaterMassAgent.__init__`
(`water_mass_agent.py` lines 34-56), recorded by the keyword arguments
they are constructed from. -/
def wmDefaultMasses : List MassElem :=
  [.wmDefinition
     [("name", .str "AAIW"), ("temperature", .num 2.2),
      ("salinity", .num 33.8), ("depth_range", .range (-500) (-1000)),
      ("description", .str "Agua Intermedia Antártica")],
   .wmDefinition
     [("name", .str "SACW"), ("temperature", .num 15.0),
      ("salinity", .num 35.5), ("depth_range", .range (-100) (-500)),
      ("description", .str "Agua Central del Atlántico Sur")],
   .wmDefinition
     [("name", .str "TW"), ("temperature", .num 20.0),
      ("salinity", .num 36.0), ("depth_range", .range 0 (-100)),
      ("description", .str "Agua Tropical")]]

/-- The default `self.config` of `WaterMassAgent.__init__`
(lines 29-57). -/
def wmDefaultConfig : Dict :=
  [("min_points", .num 10), ("min_fraction", .num 0.05),
   ("max_distance", .num 0.5), ("reference_masses", .masses wmDefaultMasses)]

/-! ## `SupervisorAgent.initialize_workflow` -/

/-- The steps of `initialize_workflow` after agent registration:
`_configure_agents` (lines 128-145) raises `FileNotFoundError` when the
data path does not exist — no agent class defines `set_data_path` or
`initialize`, so the rest of its loop is a no-op — and then
`_interview_agents` (lines 147-165) interviews the agents in insertion
order, `'parser'` first; `_verify_agent_config` (lines 167-197) returns
`False` because `ParserAgent` has no `configure`, so the interview raises
`ValueError`. -/
def initializeWorkflowAfterRegistration (dataPathExists : Bool) :
    Except PyError Dict :=
  if !dataPathExists then
    .error (.fileNotFound "data_path")
  else
    .error (.valueError "Error en configuración del agente parser")

/-- Embeds `SupervisorAgent.initialize_workflow` (lines 29-70) as a function of
whether the data path exists and of the configuration (a dict of section
dicts).  Control flow from the source:

* agent registration (lines 39-48) builds the agents dict in order
  `parser, qa, analyst, stats, water_mass, report, poster, researcher`;
  `_initialize_parser_agent` (lines 72-77) calls
  `agent.configure(self.config['data'])` when the config has a `'data'`
  section, and `ParserAgent` defines no `configure` — an
  `AttributeError`;
* otherwise, when the config has a `'water_masses'` section,
  `_initialize_water_mass_agent` (lines 100-105) calls
  `WaterMassAgent.configure` on it, which raises `TypeError` for a
  malformed `reference_masses` entry (`waterMassConfigure` applied to the
  agent's default config); the `qa`, `analyst`, `stats`, `report`,
  `poster` and `researcher` `configure` calls are total
  `self.config.update` merges on section dicts and cannot raise;
* registration done, `initializeWorkflowAfterRegistration` raises
  `FileNotFoundError` or the parser-interview `ValueError`.

The assignment of `self.workflow_status` (lines 57-70) comes after all
steps, so the `ok` branch — which would carry the would-be
`workflow_status` dict — is unreachable. -/
def initializeWorkflow (dataPathExists : Bool) (config : List (String × Dict)) :
    Except PyError Dict :=
  if (dget config "data").isSome then
    .error (.attributeError "ParserAgent" "configure")
  else
    match dget config "water_masses" with
    | some sect =>
      match waterMassConfigure wmDefaultConfig sect with
      | .error e => .error e
      | .ok _ => initializeWorkflowAfterRegistration dataPathExists
    | none => initializeWorkflowAfterRegistration dataPathExists

/-- A configuration without a `data` section whose `water_masses` section
carries a `reference_masses` entry that is a dict with an invalid keyword
set for `WaterMassDefinition`. -/
def badWaterMassConfig : List (String × Dict) :=
  [("water_masses",
    [("reference_masses", .masses [.rawDict [("bogus", .num 1)]])])]

/-! ## Concrete unit behaviours used as test inputs -/

/-- A unit behaviour whose first stage member fails: the `parser` unit
raises, every other unit succeeds with an empty result. -/
def parserFailsExec : ExecAgent := fun a _ =>
  if a = "parser" then .error (.unitError "parse failed") else .ok ([] : Dict)

/-- A `workflow_status` dict as `initialize_workflow` would have left it. -/
def initializedStatus : Dict :=
  [("status", .str "initialized"), ("current_stage", .str "data_parsing")]

/-- A two-unit sequential behaviour: `A` outputs `{x: 1}` and `B` reports
through its `probe` output whether its input carries a binding under the
key `A` (the upstream unit's name). -/
def seqProbeExec : ExecAgent := fun a ctx =>
  if a = "A" then .ok [("x", .num 1)]
  else if a = "B" then
    .ok [("probe", .num (if (dget ctx "A").isSome then 1 else 0))]
  else .error (.unitError "unknown agent")

/-- Two independent parallel units with disjoint outputs. -/
def parProbeExec : ExecAgent := fun a _ =>
  if a = "X" then .ok [("x", .num 1)]
  else if a = "Y" then .ok [("y", .num 2)]
  else .error (.unitError "unknown agent")

end OceanAnalysis

namespace OceanAnalysis

theorem dget_dictSet_self {α : Type} (d : List (String × α)) (k : String) (v : α) :
    dget (dictSet d k v) k = some v := by
  induction d with
  | nil => simp [dictSet, dget]
  | cons hd tl ih =>
    obtain ⟨k1, v1⟩ := hd
    by_cases h : k1 = k
    · simp [dictSet, dget, h]
    · simp [dictSet, dget, h, ih]

theorem dget_dictSet_ne {α : Type} (d : List (String × α)) (k k' : String) (v : α)
    (h : k' ≠ k) : dget (dictSet d k v) k' = dget d k' := by
  have h' : k ≠ k' := Ne.symm h
  induction d with
  | nil => simp [dictSet, dget, h']
  | cons hd tl ih =>
    obtain ⟨k1, v1⟩ := hd
    by_cases hk : k1 = k
    · subst hk
      simp [dictSet, dget, h']
    · by_cases hk' : k1 = k'
      · simp [dictSet, dget, hk, hk', h]
      · simp [dictSet, dget, hk, hk', ih]

theorem dget_dictUpdate_not_mem {α : Type} (d other : List (String × α)) (k : String)
    (h : ∀ p ∈ other, p.1 ≠ k) : dget (dictUpdate d other) k = dget d k := by
  induction other generalizing d with
  | nil => rfl
  | cons hd tl ih =>
    obtain ⟨k1, v1⟩ := hd
    have hne : k1 ≠ k := h (k1, v1) (List.mem_cons_self _ _)
    have htl : ∀ p ∈ tl, p.1 ≠ k := fun p hp => h p (List.mem_cons_of_mem _ hp)
    calc dget (dictUpdate d ((k1, v1) :: tl)) k
        = dget (dictUpdate (dictSet d k1 v1) tl) k := rfl
      _ = dget (dictSet d k1 v1) k := ih (dictSet d k1 v1) htl
      _ = dget d k := dget_dictSet_ne d k1 k v1 (Ne.symm hne)

theorem dget_dictUpdate_mem {α : Type} (d other : List (String × α)) (k : String) (v : α)
    (hnd : (other.map Prod.fst).Nodup) (h : dget other k = some v) :
    dget (dictUpdate d other) k = some v := by
  induction other generalizing d with
  | nil => simp [dget] at h
  | cons hd tl ih =>
    obtain ⟨k1, v1⟩ := hd
    rw [List.map_cons, List.nodup_cons] at hnd
    obtain ⟨hk1, hndtl⟩ := hnd
    by_cases hk : k1 = k
    · subst hk
      have hv : v1 = v := by simpa [dget] using h
      subst hv
      have hnotin : ∀ p ∈ tl, p.1 ≠ k1 := by
        intro p hp hpk
        have hmem : p.1 ∈ tl.map Prod.fst := List.mem_map_of_mem Prod.fst hp
        rw [hpk] at hmem
        exact hk1 hmem
      calc dget (dictUpdate d ((k1, v1) :: tl)) k1
          = dget (dictUpdate (dictSet d k1 v1) tl) k1 := rfl
        _ = dget (dictSet d k1 v1) k1 := dget_dictUpdate_not_mem _ tl k1 hnotin
        _ = some v1 := dget_dictSet_self d k1 v1
    · have h' : dget tl k = some v := by simpa [dget, hk] using h
      calc dget (dictUpdate d ((k1, v1) :: tl)) k
          = dget (dictUpdate (dictSet d k1 v1) tl) k := rfl
        _ = some v := ih (dictSet d k1 v1) hndtl h'

/-- Embeds `determineApprovalStatus` rewritten as a two-threshold decision on the
final score `0.4*auto + 0.4*quality + 0.2*user` (with `user = 1` when no
feedback was supplied), the minor-revision bound `0.8 * 0.8` evaluated to
`0.64`. -/
theorem determineApprovalStatus_eq (a q : ℚ) (u : Option ℚ) :
    determineApprovalStatus a q u =
      (if 0.4 * a + 0.4 * q + 0.2 * (u.getD 1) ≥ (0.8 : ℚ) then "approved"
       else if 0.4 * a + 0.4 * q + 0.2 * (u.getD 1) ≥ (0.64 : ℚ) then
         "needs_minor_revision"
       else "needs_major_revision") := by
  simp only [determineApprovalStatus]
  have hu : (match u with | none => (1.0 : ℚ) | some s => s) = u.getD 1 := by
    cases u <;> norm_num
  rw [hu]
  have e1 : a * 0.4 + q * 0.4 + (u.getD 1) * 0.2
      = 0.4 * a + 0.4 * q + 0.2 * (u.getD 1) := by ring
  have e2 : (0.8 : ℚ) * 0.8 = 0.64 := by norm_num
  rw [e1, e2]

/-- C1: for all `auto_score` and `quality_score` in `[0,1]` (and any
optional normalized user-feedback score), `_determine_approval_status`
uses `user_score = 1` when no user feedback is supplied, scores
`final_score = 0.4*auto + 0.4*quality + 0.2*user`, and returns
`approved` iff `final_score ≥ 0.8`, `needs_minor_revision` iff
`0.64 ≤ final_score < 0.8` (the bound arising as `0.8 * 0.8`), and
`needs_major_revision` otherwise. -/
theorem approval_status_thresholds (a q : ℚ) (u : Option ℚ)
    (ha0 : 0 ≤ a) (ha1 : a ≤ 1) (hq0 : 0 ≤ q) (hq1 : q ≤ 1)
    (hu : ∀ s ∈ u, 0 ≤ s ∧ s ≤ 1) :
    (determineApprovalStatus a q u = "approved" ↔
      0.4 * a + 0.4 * q + 0.2 * (u.getD 1) ≥ 0.8) ∧
    (determineApprovalStatus a q u = "needs_minor_revision" ↔
      0.64 ≤ 0.4 * a + 0.4 * q + 0.2 * (u.getD 1) ∧
        0.4 * a + 0.4 * q + 0.2 * (u.getD 1) < 0.8) ∧
    (determineApprovalStatus a q u = "needs_major_revision" ↔
      0.4 * a + 0.4 * q + 0.2 * (u.getD 1) < 0.64) ∧
    (u = none → u.getD 1 = (1 : ℚ)) := by
  rw [determineApprovalStatus_eq]
  split_ifs with h1 h2
  · refine ⟨⟨fun _ => h1, fun _ => rfl⟩, ?_, ?_, ?_⟩
    · exact ⟨fun h => absurd h (by decide), fun h => absurd h1 (not_le.mpr h.2)⟩
    · exact ⟨fun h => absurd h (by decide),
        fun h => absurd h1 (not_le.mpr (lt_of_lt_of_le h (by norm_num)))⟩
    · intro h; rw [h]; rfl
  · refine ⟨?_, ⟨fun _ => ⟨h2, lt_of_not_le h1⟩, fun _ => rfl⟩, ?_, ?_⟩
    · exact ⟨fun h => absurd h (by decide), fun h => absurd h h1⟩
    · exact ⟨fun h => absurd h (by decide), fun h => absurd h2 (not_le.mpr h)⟩
    · intro h; rw [h]; rfl
  · refine ⟨?_, ?_, ⟨fun _ => lt_of_not_le h2, fun _ => rfl⟩, ?_⟩
    · exact ⟨fun h => absurd h (by decide), fun h => absurd h h1⟩
    · exact ⟨fun h => absurd h (by decide), fun h => absurd h.1 h2⟩
    · intro h; rw [h]; rfl

/-- Witness for `approval_status_thresholds` at the spec's own test vector
`auto = 0.9`, `quality = 0.9`, no user feedback: `final = 0.92`, verdict
`approved`. -/
theorem approval_status_thresholds_witness :
    (0 : ℚ) ≤ 0.9 ∧
    (determineApprovalStatus 0.9 0.9 none = "approved" ↔
      0.4 * (0.9 : ℚ) + 0.4 * 0.9 + 0.2 * ((none : Option ℚ).getD 1) ≥ 0.8) := by
  refine ⟨by norm_num, ?_⟩
  have h := approval_status_thresholds 0.9 0.9 none (by norm_num) (by norm_num)
    (by norm_num) (by norm_num) (by intro s hs; simp at hs)
  exact h.1

theorem runReviews_eq_append (calls : List (Nat × String × Option Dict)) :
    ∀ reviews : List ReviewResult, ∃ extra,
      runReviews calls reviews = reviews ++ extra ∧ extra.length = calls.length := by
  induction calls with
  | nil => exact fun reviews => ⟨[], by simp [runReviews]⟩
  | cons c tl ih =>
    intro reviews
    obtain ⟨extra, he, hl⟩ := ih (reviews ++ [(reviewReport c.1 c.2.1 c.2.2 reviews).1])
    refine ⟨(reviewReport c.1 c.2.1 c.2.2 reviews).1 :: extra, ?_, by simp [hl]⟩
    have hstep : runReviews (c :: tl) reviews
        = runReviews tl (reviews ++ [(reviewReport c.1 c.2.1 c.2.2 reviews).1]) := rfl
    rw [hstep, he, List.append_assoc]
    rfl

/-- C8: every `review_report` call appends exactly one `ReviewResult` to
the review history, and across any sequence of calls the history is
append-only — every previously appended entry (its approval verdict
included) is unchanged, and the length grows by exactly one per call. -/
theorem review_history_append_only :
    (∀ (now : Nat) (report_path : String) (uf : Option Dict)
        (reviews : List ReviewResult),
      (reviewReport now report_path uf reviews).2
        = reviews ++ [(reviewReport now report_path uf reviews).1]) ∧
    (∀ (calls : List (Nat × String × Option Dict)) (reviews : List ReviewResult),
      (runReviews calls reviews).take reviews.length = reviews ∧
      (runReviews calls reviews).length = reviews.length + calls.length) := by
  constructor
  · intro now rp uf reviews
    rfl
  · intro calls reviews
    obtain ⟨extra, he, hl⟩ := runReviews_eq_append calls reviews
    constructor
    · rw [he]
      exact List.take_left reviews extra
    · rw [he, List.length_append, hl]

/-- C10: `AgentCommunicationProtocol.send_message` evaluates
`datetime.now()` while `agent_orchestrator.py` imports only `typing`,
`asyncio` and `pathlib`, so every call raises `NameError` before
`channel.put` runs — no envelope is ever enqueued on any channel. -/
theorem send_message_always_name_error (sender receiver mtype : String)
    (content : Val) (now : Nat) (channel : List Message) :
    sendMessage sender receiver mtype content now channel
      = .error (.nameError "datetime") ∧
    ∀ channel' : List Message,
      sendMessage sender receiver mtype content now channel ≠ .ok channel' := by
  have hres : resolvesInOrchestrator "datetime" = false := by decide
  constructor
  · simp [sendMessage, hres]
  · intro channel'
    simp [sendMessage, hres]

/-- C6: `verify_outputs` returns `True` iff all four required artifact
paths exist under the output root; otherwise it returns `False` and the
recorded `missing_files` list holds exactly the required paths that do not
exist.  The method is total (its body is wrapped in `try/except` that
returns `False`), so it never raises. -/
theorem verify_outputs_spec (fsExists : String → Bool) (output_dir : String) :
    ((verifyOutputs fsExists output_dir).1 = true ↔
      ∀ f ∈ requiredFiles, fsExists (output_dir ++ "/" ++ f) = true) ∧
    (∀ f, f ∈ (verifyOutputs fsExists output_dir).2 ↔
      f ∈ requiredFiles ∧ fsExists (output_dir ++ "/" ++ f) = false) ∧
    requiredFiles.length = 4 := by
  refine ⟨?_, ?_, rfl⟩
  · simp [verifyOutputs, List.isEmpty_iff, List.filter_eq_nil_iff]
  · intro f
    simp [verifyOutputs, List.mem_filter]

/-- C9 counterexample: a configuration without a `data` section does not
always reach the `_interview_agents` `ValueError` — with a `water_masses`
section whose `reference_masses` entry is a dict with an invalid
`WaterMassDefinition` keyword set, registration already raises
`TypeError` inside `_initialize_water_mass_agent`, before
`_interview_agents` ever runs. -/
theorem initialize_workflow_type_error_counterexample :
    (dget badWaterMassConfig "data").isSome = false ∧
    initializeWorkflow true badWaterMassConfig
      = .error (.typeError "WaterMassDefinition keyword arguments") ∧
    initializeWorkflow true badWaterMassConfig
      ≠ .error (.valueError "Error en configuración del agente parser") := by
  refine ⟨rfl, rfl, fun h => ?_⟩
  rw [show initializeWorkflow true badWaterMassConfig
      = .error (.typeError "WaterMassDefinition keyword arguments") from rfl] at h
  injection h with h2
  exact PyError.noConfusion h2

/-- C9 amended: with an existing data path, `initialize_workflow` raises
for every configuration before `workflow_status` is ever assigned — an
`AttributeError` from `_initialize_parser_agent` calling `configure` on a
`ParserAgent` that defines none when the config has a `data` section;
otherwise, when the `water_masses` section makes `WaterMassAgent.configure`
raise (malformed `reference_masses`), that `TypeError` propagates from
registration; and for every other configuration the `ValueError` from
`_interview_agents`, because `_verify_agent_config` returns `False` for
the parser.  In all cases the `initialized` status is unreachable through
`initialize_workflow`. -/
theorem initialize_workflow_always_raises (config : List (String × Dict)) :
    ((dget config "data").isSome = true →
      initializeWorkflow true config
        = .error (.attributeError "ParserAgent" "configure")) ∧
    ((dget config "data").isSome = false →
      (∀ sect cfg, dget config "water_masses" = some sect →
        waterMassConfigure wmDefaultConfig sect = .ok cfg →
        initializeWorkflow true config
          = .error (.valueError "Error en configuración del agente parser")) ∧
      (∀ sect e, dget config "water_masses" = some sect →
        waterMassConfigure wmDefaultConfig sect = .error e →
        initializeWorkflow true config = .error e) ∧
      (dget config "water_masses" = none →
        initializeWorkflow true config
          = .error (.valueError "Error en configuración del agente parser"))) ∧
    (∀ ws : Dict, initializeWorkflow true config ≠ .ok ws) := by
  refine ⟨?_, ?_, ?_⟩
  · intro h
    simp [initializeWorkflow, h]
  · intro h
    refine ⟨?_, ?_, ?_⟩
    · intro sect cfg hs hok
      simp [initializeWorkflow, h, hs, hok, initializeWorkflowAfterRegistration]
    · intro sect e hs herr
      simp [initializeWorkflow, h, hs, herr]
    · intro hs
      simp [initializeWorkflow, h, hs, initializeWorkflowAfterRegistration]
  · intro ws
    unfold initializeWorkflow
    split
    · simp
    · split
      · split
        · simp
        · simp [initializeWorkflowAfterRegistration]
      · simp [initializeWorkflowAfterRegistration]

/-- Witness for `initialize_workflow_always_raises`: with a `data` section
it is the parser `AttributeError`; without one (and no `water_masses`
section) it is the interview `ValueError`; with a malformed
`water_masses.reference_masses` it is the registration `TypeError`. -/
theorem initialize_workflow_always_raises_witness :
    initializeWorkflow true [("data", ([] : Dict))]
      = .error (.attributeError "ParserAgent" "configure") ∧
    initializeWorkflow true []
      = .error (.valueError "Error en configuración del agente parser") ∧
    initializeWorkflow true badWaterMassConfig
      = .error (.typeError "WaterMassDefinition keyword arguments") :=
  ⟨(initialize_workflow_always_raises [("data", ([] : Dict))]).1 rfl,
   ((initialize_workflow_always_raises []).2.1 rfl).2.2 rfl,
   ((initialize_workflow_always_raises badWaterMassConfig).2.1 rfl).2.1
     [("reference_masses", .masses [.rawDict [("bogus", .num 1)]])]
     (.typeError "WaterMassDefinition keyword arguments") rfl rfl⟩

/-- C7 counterexample: two `provide_feedback` evaluations of byte-identical
output are not byte-identical records — the record embeds the
`datetime.now()` timestamp, so evaluating at two different instants yields
different `FeedbackRecord`s. -/
theorem feedback_record_not_identical :
    (provideFeedback 0 "qa" [] []).1 ≠ (provideFeedback 1 "qa" [] []).1 := by
  decide

/-- C7 amended: `provide_feedback` is deterministic given the clock and
has no side effect other than appending the record to the feedback
history; two evaluations of byte-identical output agree on every field of
the `FeedbackRecord` except the `datetime.now()` timestamp. -/
theorem feedback_deterministic_except_timestamp (t1 t2 : Nat) (stage : String)
    (results : Dict) (history : List FeedbackRecord) :
    (provideFeedback t1 stage results history).1.stage
        = (provideFeedback t2 stage results history).1.stage ∧
    (provideFeedback t1 stage results history).1.evaluation
        = (provideFeedback t2 stage results history).1.evaluation ∧
    (provideFeedback t1 stage results history).1.recommendations
        = (provideFeedback t2 stage results history).1.recommendations ∧
    (provideFeedback t1 stage results history).1.quality_metrics
        = (provideFeedback t2 stage results history).1.quality_metrics ∧
    (provideFeedback t1 stage results history).2
        = history ++ [(provideFeedback t1 stage results history).1] ∧
    (provideFeedback t1 stage results history).1.timestamp = t1 :=
  ⟨rfl, rfl, rfl, rfl, rfl, rfl⟩

/-- C2 counterexample: a run whose parser unit fails.  In
`WorkflowManager.execute_workflow` the failure propagates with
`current_stage = 'data_processing'` but `WMState` has no status field to
set to `failed`; in `SupervisorAgent.coordinate_analysis` — the method
owning `workflow_status` — the `except` block only logs and re-raises, so
after the failing run `workflow_status` still reads `initialized`, not
`failed`. -/
theorem stage_failure_status_not_failed :
    executeWorkflow parserFailsExec setupWorkflowStages ⟨none, [], []⟩
      = .error (.unitError "parse failed",
          ⟨some "data_processing", [], []⟩) ∧
    (coordinateAnalysis (.error (.unitError "parse failed"))
        (fun d => .ok d) (fun d => .ok d) (fun d => .ok d) (fun d => .ok d)
        (fun _ _ _ _ _ => .ok ([] : Dict)) initializedStatus).1
      = .error (.unitError "parse failed") ∧
    (coordinateAnalysis (.error (.unitError "parse failed"))
        (fun d => .ok d) (fun d => .ok d) (fun d => .ok d) (fun d => .ok d)
        (fun _ _ _ _ _ => .ok ([] : Dict)) initializedStatus).2
      = initializedStatus ∧
    dget initializedStatus "status" = some (.str "initialized") ∧
    Val.str "initialized" ≠ Val.str "failed" := by
  exact ⟨rfl, rfl, rfl, rfl, by decide⟩

/-- C2 amended: a failing unit execution aborts its stage — the error is
re-raised to the caller, `current_stage` (in `WorkflowManager`) equals the
failing stage, `stage_results` receives nothing for that stage or any
later one — and in `coordinate_analysis` the failure propagates to the
caller unchanged; but the failure is never captured into
`WorkflowStatus`: `workflow_status` keeps its pre-run value instead of
being set to `failed`. -/
theorem stage_failure_amended (exec : ExecAgent) (stg : Stage)
    (rest : List Stage) (st : WMState) (e : PyError) (ctx' : Dict)
    (hfail : stageRun exec stg st.input_data = .error (e, ctx')) :
    executeWorkflow exec (stg :: rest) st
      = .error (e, ⟨some stg.name, st.stage_results, ctx'⟩) ∧
    ∀ (p2 p3 p4 p5 : Dict → Except PyError Dict)
      (p6 : Dict → Dict → Dict → Dict → Dict → Except PyError Dict)
      (ws : Dict) (e' : PyError),
      coordinateAnalysis (.error e') p2 p3 p4 p5 p6 ws = (.error e', ws) := by
  constructor
  · simp [executeWorkflow, hfail]
  · intro p2 p3 p4 p5 p6 ws e'
    rfl

/-- Witness for `stage_failure_amended` at the failing-parser run on the
stage list of `setup_workflow`. -/
theorem stage_failure_amended_witness :
    stageRun parserFailsExec ⟨"data_processing", ["parser", "qa"], false⟩
        (WMState.mk none [] []).input_data
      = .error (.unitError "parse failed", []) ∧
    executeWorkflow parserFailsExec
        (⟨"data_processing", ["parser", "qa"], false⟩ ::
          [⟨"analysis", ["analyst", "water_mass", "stats"], true⟩,
           ⟨"reporting", ["report"], false⟩]) ⟨none, [], []⟩
      = .error (.unitError "parse failed",
          ⟨some "data_processing", [], []⟩) := by
  refine ⟨rfl, ?_⟩
  exact (stage_failure_amended parserFailsExec
    ⟨"data_processing", ["parser", "qa"], false⟩
    [⟨"analysis", ["analyst", "water_mass", "stats"], true⟩,
     ⟨"reporting", ["report"], false⟩]
    ⟨none, [], []⟩ (.unitError "parse failed") [] rfl).1

/-- C3 counterexample: in the sequential stage `[A, B]`, unit `A` outputs
`{x: 1}`; unit `B` probes its input for a binding under the key `A` and
finds none (`probe = 0`) — `A`'s output was merged key-by-key by
`input_data.update(result)`, not stored under `A`'s unit-name key. -/
theorem seq_output_not_under_unit_name :
    executeWorkflow seqProbeExec [⟨"s", ["A", "B"], false⟩] ⟨none, [], []⟩
      = .ok ⟨some "s",
             [("s", [[("x", .num 1)], [("probe", .num 0)]])],
             [("x", .num 1), ("probe", .num 0)]⟩ ∧
    dget (dictUpdate ([] : Dict) [("x", Val.num 1)]) "A" = none := by
  exact ⟨rfl, rfl⟩

/-- C3 amended: in a sequential stage `[A, B]`, after `A` completes its
output is merged into the shared `input_data` before `B` starts — `B`'s
input is `input_data.update(A_output)` and therefore contains every
key/value pair of `A`'s output under `A`'s own output keys — but the
output is not stored under `A`'s unit-name key; the per-unit results are
recorded as a list under the stage's name in `stage_results`. -/
theorem seq_merge_amended (exec : ExecAgent) (n A B : String) (st : WMState)
    (oA : Dict) (hA : exec A st.input_data = .ok oA)
    (hnd : (oA.map Prod.fst).Nodup) (k : String) (v : Val)
    (hk : dget oA k = some v) :
    dget (dictUpdate st.input_data oA) k = some v ∧
    executeWorkflow exec [⟨n, [A, B], false⟩] st =
      (match exec B (dictUpdate st.input_data oA) with
       | .error e =>
         .error (e, ⟨some n, st.stage_results, dictUpdate st.input_data oA⟩)
       | .ok oB =>
         .ok ⟨some n, dictSet st.stage_results n [oA, oB],
              dictUpdate (dictUpdate st.input_data oA) oB⟩) := by
  refine ⟨dget_dictUpdate_mem _ _ _ _ hnd hk, ?_⟩
  cases hB : exec B (dictUpdate st.input_data oA) with
  | error e => simp [executeWorkflow, stageRun, execSeq, hA, hB]
  | ok oB => simp [executeWorkflow, stageRun, execSeq, hA, hB]

/-- Witness for `seq_merge_amended` on the `seqProbeExec` behaviour:
`A`'s output `{x: 1}` reaches `B`'s input under the key `x`. -/
theorem seq_merge_amended_witness :
    seqProbeExec "A" (WMState.mk none [] []).input_data
      = .ok [("x", Val.num 1)] ∧
    dget (dictUpdate (WMState.mk none [] []).input_data [("x", Val.num 1)]) "x"
      = some (Val.num 1) := by
  refine ⟨rfl, ?_⟩
  exact (seq_merge_amended seqProbeExec "s" "A" "B" ⟨none, [], []⟩
    [("x", Val.num 1)] rfl (by decide) "x" (Val.num 1) rfl).1

/-- C4 counterexample: a parallel stage `[X, Y]` with disjoint outputs.
After the stage, `input_data` is unchanged — neither output was merged
into the run context at all, under unit names or otherwise — and running
with the members' start order swapped yields a different manager state,
because the stage's outputs are stored as an ordered list under the stage
name. -/
theorem parallel_merge_counterexample :
    executeWorkflow parProbeExec [⟨"par", ["X", "Y"], true⟩]
        ⟨none, [], [("seed", .num 0)]⟩
      = .ok ⟨some "par",
             [("par", [[("x", .num 1)], [("y", .num 2)]])],
             [("seed", .num 0)]⟩ ∧
    executeWorkflow parProbeExec [⟨"par", ["Y", "X"], true⟩]
        ⟨none, [], [("seed", .num 0)]⟩
      = .ok ⟨some "par",
             [("par", [[("y", .num 2)], [("x", .num 1)]])],
             [("seed", .num 0)]⟩ ∧
    dget ([("seed", Val.num 0)] : Dict) "X" = none ∧
    dget ([("seed", Val.num 0)] : Dict) "x" = none ∧
    (WMState.mk (some "par") [("par", [[("x", .num 1)], [("y", .num 2)]])]
        [("seed", .num 0)]
      ≠ WMState.mk (some "par") [("par", [[("y", .num 2)], [("x", .num 1)]])]
        [("seed", .num 0)]) := by
  exact ⟨rfl, rfl, rfl, rfl, by decide⟩

/-- C4 amended: in a parallel stage `[X, Y]` every member is launched
against the same `input_data` snapshot and the shared `input_data` is left
unchanged by the stage (so no member observes a sibling's output, partial
or otherwise); the gathered outputs are stored, only after the whole stage
finishes, as a launch-ordered list under the stage's name in
`stage_results` — not merged keyed by unit name — so swapping the start
order leaves `input_data` identical but permutes the stored list. -/
theorem parallel_stage_amended (exec : ExecAgent) (n X Y : String) (st : WMState)
    (oX oY : Dict) (hX : exec X st.input_data = .ok oX)
    (hY : exec Y st.input_data = .ok oY) :
    executeWorkflow exec [⟨n, [X, Y], true⟩] st
      = .ok ⟨some n, dictSet st.stage_results n [oX, oY], st.input_data⟩ ∧
    executeWorkflow exec [⟨n, [Y, X], true⟩] st
      = .ok ⟨some n, dictSet st.stage_results n [oY, oX], st.input_data⟩ := by
  constructor <;> simp [executeWorkflow, stageRun, execPar, hX, hY]

/-- Witness for `parallel_stage_amended` on the `parProbeExec` behaviour. -/
theorem parallel_stage_amended_witness :
    parProbeExec "X" (WMState.mk none [] [("seed", Val.num 0)]).input_data
      = .ok [("x", Val.num 1)] ∧
    executeWorkflow parProbeExec [⟨"par", ["X", "Y"], true⟩]
        ⟨none, [], [("seed", Val.num 0)]⟩
      = .ok ⟨some "par",
             dictSet ([] : List (String × List Dict)) "par"
               [[("x", Val.num 1)], [("y", Val.num 2)]],
             (WMState.mk none [] [("seed", Val.num 0)]).input_data⟩ := by
  refine ⟨rfl, ?_⟩
  exact (parallel_stage_amended parProbeExec "par" "X" "Y"
    ⟨none, [], [("seed", Val.num 0)]⟩
    [("x", Val.num 1)] [("y", Val.num 2)] rfl rfl).1

end OceanAnalysis
